import Mathlib

/-!
Verification of the task-store core of `restapi_2023012.py`, a Flask CRUD
service over an in-memory list of task records.

The embedding below translates the Python source directly:

* JSON request bodies are association lists `List (String × JVal)` over the
  scalar JSON values `JVal` (string, integer, boolean, null).  Python dict
  truthiness (`if not data`) is emptiness of the list; `key in data` and
  `data[key]` are association-list lookup.
* `pyStr v` is Python `str(v)`; `pyStrip v` is the method call `v.strip()`,
  which succeeds only on strings (on any other value Python raises
  `AttributeError`; the embedding returns `none` and the operation ends in
  the `ApiResult.crash` outcome, modelling the uncaught exception).
  Python `str.strip()` is modelled by `pyTrim` (whitespace trimming).
* `uuid.uuid4()` and `datetime.now().isoformat()` are nondeterministic
  inputs of the process, so the operations take the generated id `freshId`
  and the current timestamp `now` as explicit string parameters.
* Each Flask handler becomes a function from the store and the request data
  to a pair of the outcome `ApiResult` and the store after the request;
  in-place dict mutation in `modify_task` becomes first-match replacement
  in the list, applied in the source's field order (title, description,
  status, updated), so that a crash while applying `description` leaves an
  already-applied `title` change visible, exactly as the Python does.
* The error message joining the Python set
  `{"pending", "in_progress", "completed"}` is modelled with one fixed
  enumeration order of the three values (CPython's set iteration order is
  hash-dependent; every order enumerates the same three values).
-/

namespace RestApi

/-- Scalar JSON values as delivered by Flask's `request.get_json`.
(Nested arrays/objects as *field values* never reach a distinct code path
in the source and are out of scope of the claims.) -/
inductive JVal where
  | jstr : String → JVal
  | jint : Int → JVal
  | jbool : Bool → JVal
  | jnull : JVal
deriving DecidableEq, Repr

/-- Python `str.strip()` with no argument: remove leading and trailing
whitespace.  Defined over the character list so that it evaluates by kernel
reduction. -/
def pyTrim (s : String) : String :=
  String.mk
    (((s.data.dropWhile Char.isWhitespace).reverse.dropWhile
        Char.isWhitespace).reverse)

/-- Python `str(v)` on a scalar JSON value. -/
def pyStr : JVal → String
  | .jstr s => s
  | .jint n => toString n
  | .jbool b => if b then "True" else "False"
  | .jnull => "None"

/-- Python `v.strip()`: defined on strings, raises `AttributeError`
(modelled as `none`) on every other value. -/
def pyStrip : JVal → Option String
  | .jstr s => some (pyTrim s)
  | _ => none

/-- A JSON object (Python dict) as an association list. -/
abbrev Payload := List (String × JVal)

/-- Python `payload[key]` / `key in payload`: first binding of `key`. -/
def dictGet (payload : Payload) (key : String) : Option JVal :=
  (payload.find? (fun p => p.1 == key)).map (fun p => p.2)

/-- One task record of the store (the dicts held in `task_store`). -/
structure Task where
  id : String
  title : String
  description : String
  status : String
  created : String
  updated : String
deriving DecidableEq, Repr

/-- Outcome of one request, as the handlers return it
(success body with a task, delete confirmation, clear count, or one of the
error responses; `crash` is an uncaught Python exception). -/
inductive ApiResult where
  | okTask : Task → ApiResult
  | deleted : String → ApiResult
  | cleared : Nat → ApiResult
  | notFound : ApiResult
  | badRequest : ApiResult
  | validationError : String → ApiResult
  | crash : ApiResult
deriving DecidableEq, Repr

/-- The three allowed status strings (`allowed_status` in the source). -/
def allowedStatus : List String := ["pending", "in_progress", "completed"]

/-- The allowed statuses as JSON values, for the `payload["status"] not in
allowed_status` membership test. -/
def statusJVals : List JVal :=
  [.jstr "pending", .jstr "in_progress", .jstr "completed"]

/-- A single-quote character, for building the Python error message. -/
def sq : String := String.mk [Char.ofNat 39]

/-- The message `f"'{key}' is required and cannot be blank"`. -/
def requiredMsg (key : String) : String :=
  sq ++ key ++ sq ++ " is required and cannot be blank"

/-- The message `f"Status must be one of: {', '.join(allowed_status)}"`,
with the set iteration order fixed to one enumeration of the three values. -/
def statusErrMsg : String :=
  "Status must be one of: " ++ String.intercalate ", " allowedStatus

/-- `key not in payload or not str(payload[key]).strip()` — the failure
test of the required-field loop in `check_task_input`. -/
def fieldBlank (payload : Payload) (key : String) : Bool :=
  match dictGet payload key with
  | none => true
  | some v => pyTrim (pyStr v) == ""

/-- `check_task_input(payload, must_have)`: returns the `(valid, msg)` pair.
The loop reports the first missing/blank required key; then, if `status` is
present, it must be one of the three allowed values. -/
def check_task_input (payload : Payload) (must_have : List String) :
    Bool × String :=
  match must_have.find? (fun key => fieldBlank payload key) with
  | some key => (false, requiredMsg key)
  | none =>
    match dictGet payload "status" with
    | some v => if v ∈ statusJVals then (true, "") else (false, statusErrMsg)
    | none => (true, "")

/-- `get_task(tid)`: first task whose id matches, if any. -/
def get_task (store : List Task) (tid : String) : Option Task :=
  store.find? (fun t => t.id == tid)

/-- `list_tasks`: the GET /tasks handler body.  `status` is the query
parameter (`none` when absent); `if status:` is true only for a non-empty
string, so an empty string falls through to the return-all branch. -/
def list_tasks (store : List Task) (status : Option String) : List Task :=
  match status with
  | some s => if s = "" then store else store.filter (fun t => t.status == s)
  | none => store

/-- `add_task`: the POST /tasks handler.  `payload` is the parsed JSON body;
an empty dict is falsy in Python, so `if not data:` rejects it as a missing
body.  `freshId` is the generated `uuid4` string and `now` the timestamp. -/
def add_task (store : List Task) (payload : Payload)
    (freshId now : String) : ApiResult × List Task :=
  if payload = [] then (.badRequest, store)
  else
    match check_task_input payload ["title"] with
    | (false, msg) => (.validationError msg, store)
    | (true, _) =>
      match (dictGet payload "title").bind pyStrip with
      | none => (.crash, store)
      | some titleS =>
        match pyStrip ((dictGet payload "description").getD (.jstr "")) with
        | none => (.crash, store)
        | some descS =>
          let newTask : Task :=
            { id := freshId, title := titleS, description := descS,
              status := pyStr ((dictGet payload "status").getD (.jstr "pending")),
              created := now, updated := now }
          (.okTask newTask, store ++ [newTask])

/-- Replace the first task whose id is `tid` (the in-place dict mutation of
the found task, seen from the store). -/
def replaceTask : List Task → String → Task → List Task
  | [], _, _ => []
  | u :: us, tid, t =>
    if u.id == tid then t :: us else u :: replaceTask us tid t

/-- `if "title" in data and data["title"].strip(): t["title"] = ...` —
`none` is the `AttributeError` raised while evaluating the condition. -/
def applyTitle (t : Task) (payload : Payload) : Option Task :=
  match dictGet payload "title" with
  | none => some t
  | some v =>
    (pyStrip v).map (fun s => if s ≠ "" then { t with title := s } else t)

/-- `if "description" in data: t["description"] = data["description"].strip()`. -/
def applyDescription (t : Task) (payload : Payload) : Option Task :=
  match dictGet payload "description" with
  | none => some t
  | some v => (pyStrip v).map (fun s => { t with description := s })

/-- `if "status" in data: t["status"] = data["status"]` (stored verbatim;
after validation the value is one of the three status strings, so `pyStr`
extracts exactly the stored string). -/
def applyStatus (t : Task) (payload : Payload) : Task :=
  match dictGet payload "status" with
  | none => t
  | some v => { t with status := pyStr v }

/-- `modify_task`: the PUT /tasks/&lt;tid&gt; handler.  Id lookup first, then the
body checks, then the fields are applied in source order; a crash while
applying `description` leaves the `title` change already in the store. -/
def modify_task (store : List Task) (tid : String) (payload : Payload)
    (now : String) : ApiResult × List Task :=
  match get_task store tid with
  | none => (.notFound, store)
  | some t =>
    if payload = [] then (.badRequest, store)
    else
      match check_task_input payload [] with
      | (false, msg) => (.validationError msg, store)
      | (true, _) =>
        match applyTitle t payload with
        | none => (.crash, store)
        | some t1 =>
          match applyDescription t1 payload with
          | none => (.crash, replaceTask store tid t1)
          | some t2 =>
            let t3 : Task := { applyStatus t2 payload with updated := now }
            (.okTask t3, replaceTask store tid t3)

/-- `remove_task`: the DELETE /tasks/&lt;tid&gt; handler.  `task_store.remove(t)`
deletes the first element equal to the found task. -/
def remove_task (store : List Task) (tid : String) : ApiResult × List Task :=
  match get_task store tid with
  | none => (.notFound, store)
  | some t => (.deleted tid, store.erase t)

/-- `remove_all`: the DELETE /tasks handler (`Clear`). -/
def remove_all (store : List Task) : ApiResult × List Task :=
  (.cleared store.length, [])

/-- First preloaded demo task (its `uuid4` id is a process input). -/
def seedTask1 (id1 : String) : Task :=
  { id := id1, title := "Finish REST API homework",
    description := "Build Flask CRUD endpoints for tasks",
    status := "in_progress",
    created := "2025-09-30T10:00:00", updated := "2025-09-30T10:00:00" }

/-- Second preloaded demo task. -/
def seedTask2 (id2 : String) : Task :=
  { id := id2, title := "Prepare for software exam",
    description := "Revise Flask concepts and REST fundamentals",
    status := "pending",
    created := "2025-09-30T09:00:00", updated := "2025-09-30T09:00:00" }

/-- The seeded initial `task_store`. -/
def seedStore (id1 id2 : String) : List Task :=
  [seedTask1 id1, seedTask2 id2]

/-- Store states reachable from the seeded initial store by any sequence of
Create, Update, Delete and Clear requests (with arbitrary payloads, ids,
generated uuids and timestamps). -/
inductive Reachable : List Task → Prop where
  | seed : ∀ id1 id2, Reachable (seedStore id1 id2)
  | create : ∀ s payload freshId now, Reachable s →
      Reachable (add_task s payload freshId now).2
  | update : ∀ s tid payload now, Reachable s →
      Reachable (modify_task s tid payload now).2
  | delete : ∀ s tid, Reachable s →
      Reachable (remove_task s tid).2
  | clear : ∀ s, Reachable s →
      Reachable (remove_all s).2

/-- C9: for every id not present in the store and every payload whatsoever,
Update returns NotFound — the id lookup is decided before any payload
validation — and the store is unchanged. -/
theorem C9_update_missing_id (store : List Task) (tid : String)
    (payload : Payload) (now : String) (h : ∀ t ∈ store, t.id ≠ tid) :
    modify_task store tid payload now = (.notFound, store) := by
  have hfind : store.find? (fun t => t.id == tid) = none := by
    apply List.find?_eq_none.mpr
    intro t ht
    simpa using h t ht
  simp [modify_task, get_task, hfind]

/-- C9 witness: updating the unknown id "zz" on the seeded store, with an
arbitrary (even invalid) payload, yields NotFound and the same store. -/
theorem C9_witness :
    modify_task (seedStore "a" "b") "zz" [("title", JVal.jint 7)] "T"
      = (.notFound, seedStore "a" "b") :=
  C9_update_missing_id (seedStore "a" "b") "zz" [("title", JVal.jint 7)] "T"
    (by decide)

/-- C10: with unique ids in the store, deleting an existing id removes
exactly that task (size drops by one, the others survive in order), returns
the deleted id, and a subsequent Get on that id is NotFound; deleting an
absent id returns NotFound and leaves the store unchanged. -/
theorem C10_delete (store : List Task) (tid : String)
    (hnodup : (store.map Task.id).Nodup) :
    (∀ t, get_task store tid = some t →
      remove_task store tid = (.deleted tid, store.erase t) ∧
      (store.erase t).length + 1 = store.length ∧
      (store.erase t).Sublist store ∧
      (∀ u ∈ store, u ≠ t → u ∈ store.erase t) ∧
      get_task (store.erase t) tid = none) ∧
    ((∀ t ∈ store, t.id ≠ tid) → remove_task store tid = (.notFound, store)) := by
  constructor
  · intro t hfind
    have hmem : t ∈ store := List.mem_of_find?_eq_some hfind
    have hid : t.id = tid := by simpa using List.find?_some hfind
    have hstore_nodup : store.Nodup := List.Nodup.of_map Task.id hnodup
    have hf : List.find? (fun u => u.id == tid) store = some t := hfind
    refine ⟨?_, ?_, List.erase_sublist t store, ?_, ?_⟩
    · simp [remove_task, get_task, hf]
    · have hpos : 0 < store.length := List.length_pos_of_mem hmem
      rw [List.length_erase_of_mem hmem]
      omega
    · intro u hu hne
      exact (List.mem_erase_of_ne hne).2 hu
    · apply List.find?_eq_none.mpr
      intro u hu
      have hu' : u ∈ store := List.mem_of_mem_erase hu
      intro hbeq
      have huid : u.id = tid := by simpa using hbeq
      have : u = t := List.inj_on_of_nodup_map hnodup hu' hmem (by rw [huid, hid])
      subst this
      exact hstore_nodup.not_mem_erase hu
  · intro h
    have hfind : store.find? (fun t => t.id == tid) = none := by
      apply List.find?_eq_none.mpr
      intro t ht
      simpa using h t ht
    simp [remove_task, get_task, hfind]

/-- C10 witness: deleting the first seeded task by its id removes exactly it
and a Get on that id afterwards finds nothing. -/
theorem C10_witness :
    remove_task (seedStore "a" "b") "a"
      = (.deleted "a", (seedStore "a" "b").erase (seedTask1 "a")) ∧
    get_task ((seedStore "a" "b").erase (seedTask1 "a")) "a" = none := by
  have h := (C10_delete (seedStore "a" "b") "a" (by decide)).1 (seedTask1 "a")
    (by decide)
  exact ⟨h.1, h.2.2.2.2⟩

/-- C3 counterexample: the empty string is a supplied filterStatus, yet
List returns both seeded tasks although no stored task has status "" —
`if status:` treats "" like an absent parameter. -/
theorem C3_counterexample :
    list_tasks (seedStore "a" "b") (some "") = seedStore "a" "b" ∧
    (seedStore "a" "b").filter (fun t => t.status == "") = [] ∧
    seedStore "a" "b" ≠ [] := by
  decide

/-- C3 (amended): for a supplied non-empty filterStatus, List returns
exactly the stored tasks with that status, in insertion order (a sublist of
the store, empty when nothing matches); with the parameter absent — or
empty, which the handler treats as absent — it returns all tasks.  List is
a total function, so it never fails. -/
theorem C3_list_filter (store : List Task) (fs : String) (hfs : fs ≠ "") :
    list_tasks store (some fs) = store.filter (fun t => t.status == fs) ∧
    (list_tasks store (some fs)).Sublist store ∧
    ((∀ t ∈ store, t.status ≠ fs) → list_tasks store (some fs) = []) ∧
    list_tasks store none = store := by
  refine ⟨by simp [list_tasks, hfs], ?_, ?_, rfl⟩
  · simp only [list_tasks, hfs, if_false]
    exact List.filter_sublist store
  · intro h
    simp only [list_tasks, hfs, if_false]
    apply List.filter_eq_nil_iff.mpr
    intro t ht
    simpa using h t ht

/-- C3 witness: filtering the seeded store by "pending" returns exactly its
pending subset, the second seeded task. -/
theorem C3_witness :
    list_tasks (seedStore "a" "b") (some "pending")
      = (seedStore "a" "b").filter (fun t => t.status == "pending") :=
  (C3_list_filter (seedStore "a" "b") "pending" (by decide)).1

/-- C2 counterexample: updating an existing task with the empty input is
rejected as BadRequest (the empty dict is falsy, indistinguishable from a
missing body), not accepted with a refreshed timestamp as claimed. -/
theorem C2_counterexample :
    modify_task (seedStore "a" "b") "a" [] "2025-10-01T00:00:00"
      = (.badRequest, seedStore "a" "b") ∧
    (modify_task (seedStore "a" "b") "a" [] "2025-10-01T00:00:00").1
      ≠ .okTask { seedTask1 "a" with updated := "2025-10-01T00:00:00" } := by
  decide

/-- C2 (amended): for an existing id, a NON-empty input that supplies none
of title, description, status passes validation (the required-field list is
empty for update), changes no field of the task except that updated is
reset to the current timestamp, and returns the task; the entirely empty
input is instead rejected as BadRequest by the body-presence check. -/
theorem C2_update_no_fields (store : List Task) (tid : String)
    (payload : Payload) (now : String) (t : Task)
    (hfind : get_task store tid = some t)
    (hne : payload ≠ [])
    (hnt : dictGet payload "title" = none)
    (hnd : dictGet payload "description" = none)
    (hns : dictGet payload "status" = none) :
    modify_task store tid payload now =
      (.okTask { t with updated := now },
       replaceTask store tid { t with updated := now }) := by
  simp [modify_task, hfind, hne, check_task_input, hns, applyTitle, hnt,
    applyDescription, hnd, applyStatus]

/-- C2 witness: a payload holding only an unrecognized key is a valid
update of the first seeded task: only its updated timestamp changes. -/
theorem C2_witness :
    modify_task (seedStore "a" "b") "a" [("note", JVal.jstr "x")]
        "2025-10-01T00:00:00"
      = (.okTask { seedTask1 "a" with updated := "2025-10-01T00:00:00" },
         replaceTask (seedStore "a" "b") "a"
           { seedTask1 "a" with updated := "2025-10-01T00:00:00" }) :=
  C2_update_no_fields (seedStore "a" "b") "a" [("note", JVal.jstr "x")]
    "2025-10-01T00:00:00" (seedTask1 "a") (by decide) (by decide) (by decide)
    (by decide) (by decide)

/-- C8 counterexample: the empty input has no title, yet Create rejects it
as BadRequest (`if not data:`), not with the required-title
ValidationError the claim demands for every title-less input. -/
theorem C8_counterexample :
    add_task (seedStore "a" "b") [] "c" "T" = (.badRequest, seedStore "a" "b") ∧
    (add_task (seedStore "a" "b") [] "c" "T").1
      ≠ .validationError (requiredMsg "title") := by
  decide

/-- C8 (amended): for every NON-empty input whose title is absent or blank
after string-casting and trimming, Create fails with the required-title
ValidationError — regardless of the status field, so the title check comes
first — and for every non-empty input with an acceptable title and a status
outside the enum it fails with the ValidationError whose message enumerates
all three allowed values; the store is unchanged in both cases.  The empty
input is instead rejected earlier as BadRequest. -/
theorem C8_create_validation (store : List Task) (payload : Payload)
    (freshId now : String) (hne : payload ≠ []) :
    (fieldBlank payload "title" = true →
       add_task store payload freshId now
         = (.validationError (requiredMsg "title"), store)) ∧
    (fieldBlank payload "title" = false →
       ∀ v, dictGet payload "status" = some v → v ∉ statusJVals →
         add_task store payload freshId now
           = (.validationError statusErrMsg, store)) := by
  constructor
  · intro hb
    simp [add_task, hne, check_task_input, List.find?, hb]
  · intro hb v hv hns
    simp [add_task, hne, check_task_input, List.find?, hb, hv, hns]

/-- C8 witness: a blank title with an invalid status draws the title
message (title checked first); a good title with status "bogus" draws the
status message; neither changes the store. -/
theorem C8_witness :
    add_task (seedStore "a" "b")
        [("title", JVal.jstr "  "), ("status", JVal.jstr "bogus")] "c" "T"
      = (.validationError (requiredMsg "title"), seedStore "a" "b") ∧
    add_task (seedStore "a" "b")
        [("title", JVal.jstr "ok"), ("status", JVal.jstr "bogus")] "c" "T"
      = (.validationError statusErrMsg, seedStore "a" "b") := by
  constructor
  · exact (C8_create_validation (seedStore "a" "b")
      [("title", JVal.jstr "  "), ("status", JVal.jstr "bogus")] "c" "T"
      (by decide)).1 (by decide)
  · exact (C8_create_validation (seedStore "a" "b")
      [("title", JVal.jstr "ok"), ("status", JVal.jstr "bogus")] "c" "T"
      (by decide)).2 (by decide) (JVal.jstr "bogus") (by decide) (by decide)

/-- C4 (code-bug evidence): a payload whose title is the integer 42 passes
validation (`str(42).strip()` is non-blank) but then `data["title"].strip()`
raises AttributeError, an uncaught exception, in both Create and Update —
the core does not return a named outcome for every JSON payload. -/
theorem C4_nonstring_title_crash :
    add_task (seedStore "a" "b") [("title", JVal.jint 42)] "c" "T"
      = (.crash, seedStore "a" "b") ∧
    modify_task (seedStore "a" "b") "a" [("title", JVal.jint 42)] "T"
      = (.crash, seedStore "a" "b") := by
  decide

lemma dictGet_nil (key : String) : dictGet [] key = none := rfl

lemma applyTitle_fields (t : Task) (payload : Payload) :
    ∀ t1, applyTitle t payload = some t1 →
      t1.id = t.id ∧ t1.created = t.created ∧ t1.description = t.description ∧
      t1.status = t.status ∧ t1.updated = t.updated := by
  intro t1 h
  unfold applyTitle at h
  cases hd : dictGet payload "title" with
  | none =>
    rw [hd] at h
    injection h with h
    subst h
    exact ⟨rfl, rfl, rfl, rfl, rfl⟩
  | some v =>
    rw [hd] at h
    cases v with
    | jstr s =>
      simp only [pyStrip, Option.map_some'] at h
      injection h with h
      subst h
      by_cases hs : pyTrim s ≠ "" <;> simp [hs]
    | jint n => simp [pyStrip] at h
    | jbool b => simp [pyStrip] at h
    | jnull => simp [pyStrip] at h

lemma applyTitle_none {t : Task} {payload : Payload}
    (h : dictGet payload "title" = none) : applyTitle t payload = some t := by
  simp [applyTitle, h]

lemma applyDescription_fields (t : Task) (payload : Payload) :
    ∀ t1, applyDescription t payload = some t1 →
      t1.id = t.id ∧ t1.title = t.title ∧ t1.created = t.created ∧
      t1.status = t.status ∧ t1.updated = t.updated := by
  intro t1 h
  unfold applyDescription at h
  cases hd : dictGet payload "description" with
  | none =>
    rw [hd] at h
    injection h with h
    subst h
    exact ⟨rfl, rfl, rfl, rfl, rfl⟩
  | some v =>
    rw [hd] at h
    cases v with
    | jstr s =>
      simp only [pyStrip, Option.map_some'] at h
      injection h with h
      subst h
      simp
    | jint n => simp [pyStrip] at h
    | jbool b => simp [pyStrip] at h
    | jnull => simp [pyStrip] at h

lemma applyDescription_none {t : Task} {payload : Payload}
    (h : dictGet payload "description" = none) :
    applyDescription t payload = some t := by
  simp [applyDescription, h]

lemma applyStatus_fields (t : Task) (payload : Payload) :
    (applyStatus t payload).id = t.id ∧ (applyStatus t payload).title = t.title ∧
    (applyStatus t payload).description = t.description ∧
    (applyStatus t payload).created = t.created ∧
    (applyStatus t payload).updated = t.updated := by
  unfold applyStatus
  cases hd : dictGet payload "status" <;> simp

lemma applyStatus_none {t : Task} {payload : Payload}
    (h : dictGet payload "status" = none) : applyStatus t payload = t := by
  simp [applyStatus, h]

lemma check_status_valid {payload : Payload} {mh : List String} {msg : String}
    (h : check_task_input payload mh = (true, msg)) :
    ∀ v, dictGet payload "status" = some v → v ∈ statusJVals := by
  intro v hv
  unfold check_task_input at h
  rw [hv] at h
  cases hf : mh.find? (fun key => fieldBlank payload key) with
  | some k => rw [hf] at h; simp at h
  | none =>
    rw [hf] at h
    by_cases hm : v ∈ statusJVals
    · exact hm
    · simp [hm] at h

lemma pyStr_mem_allowed {v : JVal} (h : v ∈ statusJVals) :
    pyStr v ∈ allowedStatus := by
  simp only [statusJVals, List.mem_cons, List.not_mem_nil, or_false] at h
  rcases h with h | h | h <;> subst h <;> decide

lemma mem_replaceTask {store : List Task} {tid : String} {t u : Task}
    (h : u ∈ replaceTask store tid t) : u ∈ store ∨ u = t := by
  induction store with
  | nil => simp [replaceTask] at h
  | cons a as ih =>
    rw [replaceTask] at h
    split at h
    · rw [List.mem_cons] at h
      rcases h with h | h
      · right; exact h
      · left; exact List.mem_cons_of_mem _ h
    · rw [List.mem_cons] at h
      rcases h with h | h
      · left; exact h ▸ List.mem_cons_self _ _
      · rcases ih h with h2 | h2
        · left; exact List.mem_cons_of_mem _ h2
        · right; exact h2

/-- C1: for every Create input whose title is a string non-blank after
trimming, whose status, if present, is one of the three enum values, and
whose description, if present, is a string, Create succeeds with a task
whose id is the fresh non-empty generated id (distinct from every stored
id), whose title is the trimmed input title, whose description is the
trimmed input description ("" if absent), whose status is the input status
("pending" if absent), whose created equals its updated timestamp, and the
task is appended at the end of the store. -/
theorem C1_create_success (store : List Task) (payload : Payload)
    (freshId now title : String)
    (ht : dictGet payload "title" = some (.jstr title))
    (htb : pyTrim title ≠ "")
    (hst : dictGet payload "status" = none ∨
           ∃ s, dictGet payload "status" = some (.jstr s) ∧
             JVal.jstr s ∈ statusJVals)
    (hd : dictGet payload "description" = none ∨
          ∃ d, dictGet payload "description" = some (.jstr d))
    (hfresh : ∀ t ∈ store, t.id ≠ freshId) (hid : freshId ≠ "") :
    add_task store payload freshId now =
      (.okTask
        { id := freshId, title := pyTrim title,
          description :=
            pyTrim (pyStr ((dictGet payload "description").getD (.jstr ""))),
          status := pyStr ((dictGet payload "status").getD (.jstr "pending")),
          created := now, updated := now },
       store ++
        [{ id := freshId, title := pyTrim title,
           description :=
             pyTrim (pyStr ((dictGet payload "description").getD (.jstr ""))),
           status := pyStr ((dictGet payload "status").getD (.jstr "pending")),
           created := now, updated := now }]) ∧
    freshId ≠ "" ∧ (∀ t ∈ store, t.id ≠ freshId) ∧
    (dictGet payload "description" = none →
      pyTrim (pyStr ((dictGet payload "description").getD (.jstr ""))) = "") ∧
    (∀ d, dictGet payload "description" = some (.jstr d) →
      pyTrim (pyStr ((dictGet payload "description").getD (.jstr ""))) = pyTrim d) ∧
    (dictGet payload "status" = none →
      pyStr ((dictGet payload "status").getD (.jstr "pending")) = "pending") ∧
    (∀ s, dictGet payload "status" = some (.jstr s) →
      pyStr ((dictGet payload "status").getD (.jstr "pending")) = s) := by
  have hne : payload ≠ [] := by
    intro h
    rw [h, dictGet_nil] at ht
    cases ht
  have hblank : fieldBlank payload "title" = false := by
    simp [fieldBlank, ht, pyStr, htb]
  have hcheck : check_task_input payload ["title"] = (true, "") := by
    rcases hst with hs | ⟨s, hs, hmem⟩
    · simp [check_task_input, List.find?, hblank, hs]
    · simp [check_task_input, List.find?, hblank, hs, hmem]
  have hdesc : pyStrip ((dictGet payload "description").getD (.jstr "")) =
      some (pyTrim (pyStr ((dictGet payload "description").getD (.jstr "")))) := by
    rcases hd with hdn | ⟨d, hdv⟩
    · simp [hdn, pyStrip, pyStr]
    · simp [hdv, pyStrip, pyStr]
  have hps : pyStrip (.jstr title) = some (pyTrim title) := rfl
  refine ⟨?_, hid, hfresh, ?_, ?_, ?_, ?_⟩
  · simp [add_task, hne, hcheck, ht, hps, hdesc]
  · intro h
    rw [h]
    decide
  · intro d h
    rw [h]
    rfl
  · intro h
    rw [h]
    rfl
  · intro s h
    rw [h]
    rfl

/-- C1 witness: creating with body {"title": "Buy milk"} on the seeded
store appends a task with status "pending", empty description, the fresh
id "c", and created equal to updated. -/
theorem C1_witness :
    add_task (seedStore "a" "b") [("title", JVal.jstr "Buy milk")] "c" "T"
      = (.okTask { id := "c", title := "Buy milk", description := "",
                   status := "pending", created := "T", updated := "T" },
         seedStore "a" "b" ++
          [{ id := "c", title := "Buy milk", description := "",
             status := "pending", created := "T", updated := "T" }]) := by
  have h := (C1_create_success (seedStore "a" "b")
    [("title", JVal.jstr "Buy milk")] "c" "T" "Buy milk" (by decide) (by decide)
    (Or.inl (by decide)) (Or.inl (by decide)) (by decide) (by decide)).1
  rw [h]
  decide

/-- C7: a successful Update never alters the task's id or created fields,
leaves every field not supplied in the input unchanged, and sets updated to
the current timestamp, hence to a value ≥ the previous updated value
whenever the clock did not go backwards. -/
theorem C7_update_frame (store : List Task) (tid : String) (payload : Payload)
    (now : String) (t t2 : Task) (store2 : List Task)
    (hfind : get_task store tid = some t)
    (hrun : modify_task store tid payload now = (.okTask t2, store2)) :
    t2.id = t.id ∧ t2.created = t.created ∧ t2.updated = now ∧
    (dictGet payload "title" = none → t2.title = t.title) ∧
    (dictGet payload "description" = none → t2.description = t.description) ∧
    (dictGet payload "status" = none → t2.status = t.status) ∧
    (t.updated ≤ now → t.updated ≤ t2.updated) := by
  unfold modify_task at hrun
  split at hrun
  · simp at hrun
  rename_i t0 heq
  have ht0 : t0 = t := by
    first
    | exact heq.symm
    | rw [hfind] at heq
      exact (Option.some.inj heq).symm
  rw [ht0] at hrun
  split at hrun
  · simp at hrun
  split at hrun
  · simp at hrun
  split at hrun
  · simp at hrun
  rename_i t1 ha
  split at hrun
  · simp at hrun
  rename_i u hb
  simp only [Prod.mk.injEq, ApiResult.okTask.injEq] at hrun
  obtain ⟨h2, _⟩ := hrun
  subst h2
  obtain ⟨ha1, ha2, ha3, ha4, ha5⟩ := applyTitle_fields t payload t1 ha
  obtain ⟨hb1, hb2, hb3, hb4, hb5⟩ := applyDescription_fields t1 payload u hb
  obtain ⟨hs1, hs2, hs3, hs4, hs5⟩ := applyStatus_fields u payload
  refine ⟨?_, ?_, rfl, ?_, ?_, ?_, ?_⟩
  · show (applyStatus u payload).id = t.id
    rw [hs1, hb1, ha1]
  · show (applyStatus u payload).created = t.created
    rw [hs4, hb3, ha2]
  · intro hn
    have ht1 : t1 = t := by
      have h3 := @applyTitle_none t payload hn
      rw [ha] at h3
      injection h3
    show (applyStatus u payload).title = t.title
    rw [hs2, hb2, ht1]
  · intro hn
    have hu : u = t1 := by
      have h3 := @applyDescription_none t1 payload hn
      rw [hb] at h3
      injection h3
    show (applyStatus u payload).description = t.description
    rw [hs3, hu, ha3]
  · intro hn
    show (applyStatus u payload).status = t.status
    rw [applyStatus_none hn, hb4, ha4]
  · intro hle
    exact hle

/-- C7 witness: updating only the description of the first seeded task
keeps its id, created and title, and sets updated to the new timestamp. -/
theorem C7_witness :
    ({ seedTask1 "a" with description := "new", updated := "2025-10-02T00:00:00" } : Task).id = (seedTask1 "a").id ∧
    ({ seedTask1 "a" with description := "new", updated := "2025-10-02T00:00:00" } : Task).created = (seedTask1 "a").created ∧
    ({ seedTask1 "a" with description := "new", updated := "2025-10-02T00:00:00" } : Task).updated = "2025-10-02T00:00:00" ∧
    ({ seedTask1 "a" with description := "new", updated := "2025-10-02T00:00:00" } : Task).title = (seedTask1 "a").title := by
  have h := C7_update_frame (seedStore "a" "b") "a"
    [("description", JVal.jstr " new ")] "2025-10-02T00:00:00" (seedTask1 "a")
    { seedTask1 "a" with description := "new", updated := "2025-10-02T00:00:00" }
    (replaceTask (seedStore "a" "b") "a"
      { seedTask1 "a" with description := "new", updated := "2025-10-02T00:00:00" })
    (by decide) (by decide)
  exact ⟨h.1, h.2.1, h.2.2.1, h.2.2.2.1 (by decide)⟩

/-- C6: for an existing task and an input supplying a title that is blank
after trimming: if the input also supplies a status outside the enum,
Update fails with the status ValidationError and applies nothing; otherwise
(status absent or valid, description absent or a string) Update succeeds
and the blank title is silently ignored — the stored title is unchanged and
no error is returned. -/
theorem C6_update_asymmetry (store : List Task) (tid now : String)
    (payload : Payload) (t : Task) (w : String)
    (hfind : get_task store tid = some t)
    (ht : dictGet payload "title" = some (.jstr w))
    (hblank : pyTrim w = "") :
    (∀ v, dictGet payload "status" = some v → v ∉ statusJVals →
        modify_task store tid payload now = (.validationError statusErrMsg, store)) ∧
    ((dictGet payload "status" = none ∨
        ∃ s, dictGet payload "status" = some (.jstr s) ∧
          JVal.jstr s ∈ statusJVals) →
      (dictGet payload "description" = none ∨
        ∃ d, dictGet payload "description" = some (.jstr d)) →
      ∃ t2, modify_task store tid payload now
          = (.okTask t2, replaceTask store tid t2) ∧ t2.title = t.title) := by
  have hne : payload ≠ [] := by
    intro h
    rw [h, dictGet_nil] at ht
    cases ht
  constructor
  · intro v hv hnv
    have hchk : check_task_input payload [] = (false, statusErrMsg) := by
      simp [check_task_input, List.find?, hv, hnv]
    simp [modify_task, hfind, hne, hchk]
  · intro hs hd
    have hchk : check_task_input payload [] = (true, "") := by
      rcases hs with h | ⟨s, h, hmem⟩
      · simp [check_task_input, List.find?, h]
      · simp [check_task_input, List.find?, h, hmem]
    have hat : applyTitle t payload = some t := by
      simp [applyTitle, ht, pyStrip, hblank]
    rcases hd with hdn | ⟨d, hdv⟩
    · have had : applyDescription t payload = some t := applyDescription_none hdn
      refine ⟨{ applyStatus t payload with updated := now }, ?_, ?_⟩
      · simp [modify_task, hfind, hne, hchk, hat, had]
      · show (applyStatus t payload).title = t.title
        exact (applyStatus_fields t payload).2.1
    · have had : applyDescription t payload
          = some { t with description := pyTrim d } := by
        simp [applyDescription, hdv, pyStrip]
      refine ⟨{ (applyStatus { t with description := pyTrim d } payload)
                  with updated := now }, ?_, ?_⟩
      · simp [modify_task, hfind, hne, hchk, hat, had]
      · show (applyStatus { t with description := pyTrim d } payload).title
            = t.title
        exact (applyStatus_fields { t with description := pyTrim d } payload).2.1

/-- C6 witness: on the first seeded task, a blank title together with
status "bogus" draws the status ValidationError with an unchanged store;
the same theorem applied with only the blank title yields the conclusion
used for the silently-ignored branch. -/
theorem C6_witness :
    modify_task (seedStore "a" "b") "a"
        [("title", JVal.jstr "  "), ("status", JVal.jstr "bogus")] "T"
      = (.validationError statusErrMsg, seedStore "a" "b") :=
  (C6_update_asymmetry (seedStore "a" "b") "a" "T"
    [("title", JVal.jstr "  "), ("status", JVal.jstr "bogus")]
    (seedTask1 "a") "  " (by decide) (by decide) (by decide)).1
    (JVal.jstr "bogus") (by decide) (by decide)

lemma add_task_status_inv (s : List Task) (payload : Payload)
    (fid now : String) (ih : ∀ t ∈ s, t.status ∈ allowedStatus) :
    ∀ t ∈ (add_task s payload fid now).2, t.status ∈ allowedStatus := by
  rcases hrun : add_task s payload fid now with ⟨r, s2⟩
  show ∀ t ∈ s2, t.status ∈ allowedStatus
  unfold add_task at hrun
  split at hrun
  · injection hrun with h1 h2
    subst h2
    exact ih
  split at hrun
  · injection hrun with h1 h2
    subst h2
    exact ih
  rename_i p hcheck
  split at hrun
  · injection hrun with h1 h2
    subst h2
    exact ih
  split at hrun
  · injection hrun with h1 h2
    subst h2
    exact ih
  injection hrun with h1 h2
  subst h2
  intro t htm
  rw [List.mem_append] at htm
  rcases htm with htm | htm
  · exact ih t htm
  · rw [List.mem_singleton] at htm
    subst htm
    show pyStr ((dictGet payload "status").getD (.jstr "pending")) ∈ allowedStatus
    cases hsv : dictGet payload "status" with
    | none =>
      show pyStr (JVal.jstr "pending") ∈ allowedStatus
      decide
    | some v =>
      show pyStr v ∈ allowedStatus
      exact pyStr_mem_allowed (check_status_valid hcheck v hsv)

lemma modify_task_status_inv (s : List Task) (tid : String) (payload : Payload)
    (now : String) (ih : ∀ t ∈ s, t.status ∈ allowedStatus) :
    ∀ t ∈ (modify_task s tid payload now).2, t.status ∈ allowedStatus := by
  rcases hrun : modify_task s tid payload now with ⟨r, s2⟩
  show ∀ t ∈ s2, t.status ∈ allowedStatus
  unfold modify_task at hrun
  split at hrun
  · injection hrun with h1 h2
    subst h2
    exact ih
  rename_i t0 hfind
  have ht0 : t0.status ∈ allowedStatus :=
    ih t0 (List.mem_of_find?_eq_some hfind)
  split at hrun
  · injection hrun with h1 h2
    subst h2
    exact ih
  split at hrun
  · injection hrun with h1 h2
    subst h2
    exact ih
  rename_i p hcheck
  split at hrun
  · injection hrun with h1 h2
    subst h2
    exact ih
  rename_i t1 ha
  have ht1 : t1.status = t0.status := (applyTitle_fields t0 payload t1 ha).2.2.2.1
  split at hrun
  · injection hrun with h1 h2
    subst h2
    intro u hu
    rcases mem_replaceTask hu with hu | hu
    · exact ih u hu
    · subst hu
      rw [ht1]
      exact ht0
  rename_i u2 hb
  have ht2 : u2.status = t1.status :=
    (applyDescription_fields t1 payload u2 hb).2.2.2.1
  injection hrun with h1 h2
  subst h2
  intro u hu
  rcases mem_replaceTask hu with hu | hu
  · exact ih u hu
  · subst hu
    show (applyStatus u2 payload).status ∈ allowedStatus
    cases hsv : dictGet payload "status" with
    | none =>
      rw [applyStatus_none hsv, ht2, ht1]
      exact ht0
    | some v =>
      have hv := check_status_valid hcheck v hsv
      have hst : (applyStatus u2 payload).status = pyStr v := by
        simp [applyStatus, hsv]
      rw [hst]
      exact pyStr_mem_allowed hv

lemma remove_task_status_inv (s : List Task) (tid : String)
    (ih : ∀ t ∈ s, t.status ∈ allowedStatus) :
    ∀ t ∈ (remove_task s tid).2, t.status ∈ allowedStatus := by
  rcases hrun : remove_task s tid with ⟨r, s2⟩
  show ∀ t ∈ s2, t.status ∈ allowedStatus
  unfold remove_task at hrun
  split at hrun
  · injection hrun with h1 h2
    subst h2
    exact ih
  injection hrun with h1 h2
  subst h2
  intro u hu
  exact ih u (List.mem_of_mem_erase hu)

/-- C5: in every store state reachable from the seeded initial store by any
sequence of Create, Update, Delete and Clear operations, every stored
task's status is one of the three enum values. -/
theorem C5_status_invariant (s : List Task) (h : Reachable s) :
    ∀ t ∈ s, t.status ∈ allowedStatus := by
  induction h with
  | seed id1 id2 =>
    intro t ht
    simp only [seedStore, List.mem_cons, List.not_mem_nil, or_false] at ht
    rcases ht with ht | ht
    · subst ht
      simp [seedTask1, allowedStatus]
    · subst ht
      simp [seedTask2, allowedStatus]
  | create s payload freshId now _ ih =>
    exact add_task_status_inv s payload freshId now ih
  | update s tid payload now _ ih =>
    exact modify_task_status_inv s tid payload now ih
  | delete s tid _ ih =>
    exact remove_task_status_inv s tid ih
  | clear s _ _ =>
    intro t ht
    simp [remove_all] at ht

/-- C5 witness: the invariant applied to the seeded store certifies the
first seed task's status. -/
theorem C5_witness : (seedTask1 "a").status ∈ allowedStatus :=
  C5_status_invariant (seedStore "a" "b") (Reachable.seed "a" "b")
    (seedTask1 "a") (by decide)

end RestApi
